import Mathlib

/-!
Shallow embedding of `src/light_sensor/opt3001.py` (class `OPT3001`).

Modelling conventions:
* Python `int` is `Int` (validation such as `position < 0` is meaningful);
  values known to be byte lists are `List Nat`.
* Python `float` arithmetic is modelled over `ℚ` (`LUX_FACTOR = 0.01` becomes
  `1/100`; the one concrete value the spec quotes, `2*2603*0.01 = 52.06`, is
  exact in binary64 as well).
* The pyusb transport is modelled as a trace of `Action`s; `write` of a `str`
  sends the UTF-8 bytes of the string (pyusb `_interop.as_array` falls back to
  `data.encode('utf-8')`), which for the ASCII strings in this file is
  `Char.toNat` of each character.
* Python exceptions are `Except Err`; the spec's error taxonomy is used for
  the constructor names (`InvalidRegister` is the `ValueError` raised by
  `read_register`'s range check, `ShortResponse` the `IndexError` raised by
  indexing a too-short reply at offsets 9/11, `FromhexError` the `ValueError`
  `bytes.fromhex` can raise).
-/

/-- The `OperationModes` enum of `OPT3001` (source lines 24–28). -/
inductive OperationModes
| shutdown
| single_shot
| conntinuous
| conntinuous_3
deriving DecidableEq

/-- The numeric value attached to each `OperationModes` member (source lines 25–28). -/
def OperationModes.value : OperationModes → Nat
| .shutdown => 0
| .single_shot => 2
| .conntinuous => 4
| .conntinuous_3 => 6

/-- `LUX_FACTOR = 0.01` (source line 21), as an exact rational. -/
def LUX_FACTOR : ℚ := 1 / 100

/-- `WAIT_AFTER_WRITE = timedelta(milliseconds=1).total_seconds() = 0.001`
(source line 22), in seconds, as an exact rational. -/
def WAIT_AFTER_WRITE : ℚ := 1 / 1000

/-- Errors of the embedded operations, named after the spec's taxonomy
(§7 of the spec); see the module docstring for the Python exception each
constructor stands for. -/
inductive Err
| InvalidRegister
| ShortResponse
| FromhexError
deriving DecidableEq

deriving instance DecidableEq for Except

/-- The hex digits of a nonnegative integer, most significant first,
lowercase, `['0']` for zero — exactly Python's `hex(n)[2:]` for `n ≥ 0`.
`Nat.toDigits 16` uses `Nat.digitChar`, which renders 10–15 as `'a'`–`'f'`. -/
def pyHexNat (n : Nat) : List Char := Nat.toDigits 16 n

/-- Python `hex(n)[2:]`. For `n ≥ 0` this is the plain hex digits; for
`n < 0`, `hex(n)` is `'-0x' ++ digits`, so `[2:]` yields `'x' ++ digits`. -/
def pyHexSlice (n : Int) : List Char :=
  if 0 ≤ n then pyHexNat n.toNat else 'x' :: pyHexNat (-n).toNat

/-- Python `str.zfill(width)`: left-pad with `'0'` up to `width`, keeping a
leading sign character in front of the padding. -/
def zfill (width : Nat) (s : List Char) : List Char :=
  match s with
  | [] => List.replicate width '0'
  | c :: rest =>
    if c = '+' ∨ c = '-' then c :: (List.replicate (width - s.length) '0' ++ rest)
    else List.replicate (width - s.length) '0' ++ s

/-- Value of one hex digit character, as in `bytes.fromhex`. -/
def hexVal (c : Char) : Option Nat :=
  if '0' ≤ c ∧ c ≤ '9' then some (c.toNat - '0'.toNat)
  else if 'a' ≤ c ∧ c ≤ 'f' then some (c.toNat - 'a'.toNat + 10)
  else if 'A' ≤ c ∧ c ≤ 'F' then some (c.toNat - 'A'.toNat + 10)
  else none

/-- ASCII whitespace skipped by `bytes.fromhex` between byte pairs. -/
def isPySpace (c : Char) : Bool :=
  c = ' ' ∨ c = '\t' ∨ c = '\n' ∨ c = '\x0b' ∨ c = '\x0c' ∨ c = '\r'

/-- Worker for `bytes.fromhex`: whitespace may separate byte pairs, but the
two digits of one byte must be adjacent (CPython rejects `"1 2"`). -/
def fromhexAux : List Char → Option (List Nat)
  | [] => some []
  | c :: rest =>
    if isPySpace c then fromhexAux rest
    else
      match hexVal c, rest with
      | some hi, d :: rest2 =>
        match hexVal d, fromhexAux rest2 with
        | some lo, some bs => some ((hi * 16 + lo) :: bs)
        | _, _ => none
      | _, _ => none

/-- Python `bytes.fromhex`, on the character list of the string. -/
def fromhex (s : List Char) : Option (List Nat) := fromhexAux s

/-- UTF-8 bytes of an ASCII string, as written by pyusb when a `str` is
passed to `Endpoint.write` (all strings in this file are pure ASCII). -/
def strBytes (s : List Char) : List Nat := s.map Char.toNat

/-- One observable transport action of the session: a bulk write of raw
bytes, a `sleep` of the given number of seconds, or a bulk read of up to
`count` bytes. -/
inductive BusAction
| write (data : List Nat)
| settle (seconds : ℚ)
| read (count : Nat)
deriving DecidableEq

/-- The hex-dump string `read_register` feeds to `bytes.fromhex`
(source lines 58–63), given the already-rendered two-character address. -/
def read_register_hex_chars (hex_pos : List Char) : List Char :=
  "02 01 00 0E AE FC 00 03 ".data ++
  "88 06 ".data ++ hex_pos ++ " 06 04 03 89 06 ".data ++
  "FF 05 FF 05 04 00 00 00 ".data ++
  "00 00 00 00 00 00 00 00 ".data

/-- The frame-construction half of `read_register` (source lines 54–63):
validate the address, render it as `hex(position)[2:].zfill(2)`, and parse
the hex dump into bytes. -/
def encode_read_register (position : Int) : Except Err (List Nat) :=
  if position < 0 ∨ 16 ≤ position then .error .InvalidRegister
  else
    match fromhex (read_register_hex_chars (zfill 2 (pyHexSlice position))) with
    | some bs => .ok bs
    | none => .error .FromhexError

/-- The response-decoding half of `read_register` (source line 67):
`return output_bytes[9], output_bytes[11]`. Indexing a reply shorter than
12 bytes raises (offset 11 out of range), modelled as `ShortResponse`. -/
def decode_register_response (frame : List Nat) : Except Err (Nat × Nat) :=
  if h : 11 < frame.length then
    .ok (frame.get ⟨9, by omega⟩, frame.get ⟨11, h⟩)
  else .error .ShortResponse

/-- `read_register` (source lines 54–67): encode, write the frame, sleep
`WAIT_AFTER_WRITE`, read 32 bytes, return bytes 9 and 11 of the reply.
`response` is the frame the device returns for this exchange; the returned
trace is the sequence of transport actions performed. -/
def read_register (position : Int) (response : List Nat) :
    Except Err ((Nat × Nat) × List BusAction) :=
  match encode_read_register position with
  | .error e => .error e
  | .ok s =>
    match decode_register_response response with
    | .error e => .error e
    | .ok pair => .ok (pair, [.write s, .settle WAIT_AFTER_WRITE, .read 32])

/-- Worker for `read_all_registers`: evaluate the comprehension
`[self.read_register(k) for k in ks]` left to right, the `i`-th read
consuming the `i`-th inbound frame of the FIFO transport. -/
def read_all_from (responses : Nat → List Nat) :
    Nat → List Nat → Except Err (List (Nat × Nat) × List BusAction)
  | _, [] => .ok ([], [])
  | i, k :: ks =>
    match read_register (Int.ofNat k) (responses i) with
    | .error e => .error e
    | .ok (pair, acts) =>
      match read_all_from responses (i + 1) ks with
      | .error e => .error e
      | .ok (pairs, rest) => .ok (pair :: pairs, acts ++ rest)

/-- `read_all_registers` (source lines 69–70):
`[self.read_register(k) for k in range(16)]`. -/
def read_all_registers (responses : Nat → List Nat) :
    Except Err (List (Nat × Nat) × List BusAction) :=
  read_all_from responses 0 (List.range 16)

/-- The lux formula of `read_lux` (source lines 74–78) applied to the byte
pair `(a, b)` returned by `read_register(0)`:
`(1 << ((a & 0xF0) >> 4)) * (((a & 0x0F) << 8) + b) * LUX_FACTOR`. -/
def lux_value (a b : Nat) : ℚ :=
  (((1 <<< ((a &&& 0xF0) >>> 4)) * (((a &&& 0x0F) <<< 8) + b) : Nat) : ℚ) * LUX_FACTOR

/-- `read_lux` (source lines 72–78): `read_register(0)` then the
exponent/mantissa formula. -/
def read_lux (response : List Nat) : Except Err ℚ :=
  match read_register 0 response with
  | .error e => .error e
  | .ok ((a, b), _) => .ok (lux_value a b)

/-- `convertion_time_multiplier = 1 if convertion_time == 100 else 2`
(source line 92). -/
def convertion_time_multiplier (convertion_time : Int) : Nat :=
  if convertion_time = 100 then 1 else 2

/-- `lux_full_scale_hex = hex(lux_full_scale)[2:].zfill(2)` (source line 91). -/
def full_scale_hex_chars (lux_full_scale : Int) : List Char :=
  zfill 2 (pyHexSlice lux_full_scale)

/-- `mode_hex = hex(mode.value * convertion_time_multiplier)[2:]`
(source line 93) — note: no `zfill`. -/
def mode_hex_chars (convertion_time : Int) (mode : OperationModes) : List Char :=
  pyHexSlice (Int.ofNat (mode.value * convertion_time_multiplier convertion_time))

/-- The configuration string `s` of `set_configuration` (source lines 94–99).
It is a `str`, never passed through `bytes.fromhex`. -/
def config_frame_chars (lux_full_scale convertion_time : Int)
    (mode : OperationModes) : List Char :=
  "02 01 00 0A AA C0 00 03 ".data ++
  "88 06 01 06 ".data ++
  full_scale_hex_chars lux_full_scale ++ mode_hex_chars convertion_time mode ++
  " 06 10 06 ".data ++
  "04 00 00 00 00 00 00 00 ".data ++
  "00 00 00 00 00 00 00 00 ".data

/-- The ack-trigger string written by `set_configuration` (source lines 103–108);
also a `str`, never passed through `bytes.fromhex`. -/
def ack_trigger_chars : List Char :=
  "04 03 00 00 00 00 00 00 ".data ++
  "00 00 00 00 00 00 00 00 ".data ++
  "00 00 00 00 00 00 00 00 ".data ++
  "00 00 00 00 00 00 00 00 ".data

/-- `set_configuration` (source lines 84–109): write the configuration
string, sleep `WAIT_AFTER_WRITE`, read 32, write the ack-trigger string,
read 32. The function performs no validation and cannot raise, so it is
total; its result is the trace of transport actions. -/
def set_configuration (lux_full_scale convertion_time : Int)
    (mode : OperationModes) : List BusAction :=
  [ .write (strBytes (config_frame_chars lux_full_scale convertion_time mode)),
    .settle WAIT_AFTER_WRITE,
    .read 32,
    .write (strBytes ack_trigger_chars),
    .read 32 ]

/-- Spec §6's read-register frame: header `02 01 00 0E AE FC 00 03 88 06`,
the address byte, `06 04 03 89 06`, trailer `FF 05 FF 05 04`, zero-padded
to 32 bytes. -/
def read_register_expected_frame (addr : Nat) : List Nat :=
  [0x02, 0x01, 0x00, 0x0E, 0xAE, 0xFC, 0x00, 0x03, 0x88, 0x06] ++ [addr] ++
  [0x06, 0x04, 0x03, 0x89, 0x06] ++ [0xFF, 0x05, 0xFF, 0x05, 0x04] ++
  List.replicate 11 0

/-- The transport actions one successful `read_register position` performs. -/
def read_register_actions (position : Nat) : List BusAction :=
  [.write (read_register_expected_frame position), .settle WAIT_AFTER_WRITE, .read 32]

/-- A synthetic 32-byte response with byte `x` at offset 9 and `y` at
offset 11 (spec §8's left-inverse construction). -/
def mk_response (x y : Nat) : List Nat :=
  [0, 0, 0, 0, 0, 0, 0, 0, 0, x, 0, y,
   0, 0, 0, 0, 0, 0, 0, 0, 0, 0, 0, 0, 0, 0, 0, 0, 0, 0, 0, 0]

/-- The outbound frames (write payloads) of a trace, in order. -/
def outbound_writes : List BusAction → List (List Nat)
  | [] => []
  | BusAction.write d :: rest => d :: outbound_writes rest
  | _ :: rest => outbound_writes rest

/-- `true` iff every `read` in the trace is immediately preceded by a
`settle` (the "settle delay between write and read of every exchange"
shape the spec demands). -/
def settle_before_reads : List BusAction → Bool
  | a :: b :: rest =>
    (match b, a with
     | BusAction.read _, BusAction.settle _ => true
     | BusAction.read _, _ => false
     | _, _ => true) && settle_before_reads (b :: rest)
  | _ => true

/-- Helper: for each address 0–15 the encoder accepts and produces exactly
the spec's 32-byte frame (checked by evaluation, address by address). -/
theorem encode_read_register_eq (k : Nat) (h : k < 16) :
    encode_read_register (Int.ofNat k) = .ok (read_register_expected_frame k) := by
  interval_cases k <;> decide

set_option maxRecDepth 8192 in
/-- Helper: on a byte, masking with `0xF0` then shifting right 4 is the top
nibble, and masking with `0x0F` is `% 16`. -/
theorem lux_bits :
    ∀ a : Fin 256, (a.val &&& 240) >>> 4 = a.val >>> 4 ∧ a.val &&& 15 = a.val % 16 := by
  decide

/-- Helper: `getD` with default 0 agrees with `get` at in-range indices. -/
theorem getD_eq_get_of_lt (l : List Nat) (i : Nat) (h : i < l.length) :
    l.getD i 0 = l.get ⟨i, h⟩ := by
  induction l generalizing i with
  | nil => simp at h
  | cons a l ih =>
    cases i with
    | zero => rfl
    | succ i => exact ih i (by simp only [List.length_cons] at h; omega)

/-- Helper: decoding a reply of length at least 12 returns bytes 9 and 11. -/
theorem decode_ok (frame : List Nat) (h : 12 ≤ frame.length) :
    decode_register_response frame = .ok (frame.getD 9 0, frame.getD 11 0) := by
  unfold decode_register_response
  rw [dif_pos (by omega : 11 < frame.length)]
  rw [getD_eq_get_of_lt frame 9 (by omega), getD_eq_get_of_lt frame 11 (by omega)]

/-- Helper: a full `read_register` exchange at a valid address with a long
enough reply returns bytes 9 and 11 and performs write–settle–read. -/
theorem read_register_ok (k : Nat) (hk : k < 16) (resp : List Nat)
    (h : 12 ≤ resp.length) :
    read_register (Int.ofNat k) resp =
      .ok ((resp.getD 9 0, resp.getD 11 0), read_register_actions k) := by
  unfold read_register
  rw [encode_read_register_eq k hk, decode_ok resp h]
  rfl

/-- Helper: evaluating the comprehension over `range' i n` (all addresses
below 16, all replies long enough) reads each register in order. -/
theorem read_all_from_range (responses : Nat → List Nat)
    (hresp : ∀ k, k < 16 → 12 ≤ (responses k).length) :
    ∀ (n i : Nat), i + n ≤ 16 →
      read_all_from responses i (List.range' i n) =
        .ok ((List.range' i n).map
               (fun k => ((responses k).getD 9 0, (responses k).getD 11 0)),
             ((List.range' i n).map read_register_actions).flatten) := by
  intro n
  induction n with
  | zero => intro i _; rfl
  | succ n ih =>
    intro i hle
    rw [show List.range' i (n + 1) = i :: List.range' (i + 1) n from rfl]
    simp only [read_all_from]
    rw [read_register_ok i (by omega) (responses i) (hresp i (by omega))]
    rw [ih (i + 1) (by omega)]
    simp [List.map, List.flatten]

/-- Claim C1: for every address in [0,15], `read_register`'s frame
construction produces exactly the 32-byte frame consisting of the header
`02 01 00 0E AE FC 00 03 88 06`, the address byte (two-digit zero-padded
hex), `06 04 03 89 06`, the trailer `FF 05 FF 05 04` and zero padding; every
address outside [0,15] is rejected with `InvalidRegister` and no frame is
produced. -/
theorem C1_read_register_frame (position : Int) :
    (0 ≤ position → position ≤ 15 →
      encode_read_register position =
        .ok (read_register_expected_frame position.toNat) ∧
      (read_register_expected_frame position.toNat).length = 32) ∧
    (position < 0 ∨ 15 < position →
      encode_read_register position = .error .InvalidRegister) := by
  constructor
  · intro h0 h15
    have hk : position.toNat < 16 := by omega
    have hcast : Int.ofNat position.toNat = position := Int.toNat_of_nonneg h0
    refine ⟨?_, ?_⟩
    · rw [← hcast]; exact encode_read_register_eq position.toNat hk
    · simp [read_register_expected_frame]
  · intro h
    unfold encode_read_register
    rw [if_pos (by omega)]

/-- Witness for C1: address 3 is accepted with the expected 32-byte frame;
address 16 is rejected. -/
theorem C1_read_register_frame_witness :
    encode_read_register 3 = .ok (read_register_expected_frame (3 : Int).toNat) ∧
    (read_register_expected_frame (3 : Int).toNat).length = 32 ∧
    encode_read_register 16 = .error .InvalidRegister :=
  ⟨((C1_read_register_frame 3).1 (by norm_num) (by norm_num)).1,
   ((C1_read_register_frame 3).1 (by norm_num) (by norm_num)).2,
   (C1_read_register_frame 16).2 (by norm_num)⟩

/-- Claim C2: for every response byte pair `(a, b)` with `a` a byte,
`read_lux`'s value is `(1 << exponent) * mantissa * 0.01` with `exponent`
the top 4 bits of `a` and `mantissa` the low 4 bits of `a` shifted left 8
plus `b`; concretely high `0x1A`, low `0x2B` gives 52.06, also through a
full `read_lux` on a synthetic response frame. -/
theorem C2_read_lux_formula :
    (∀ a b : Nat, a < 256 →
      lux_value a b =
        (((1 <<< (a >>> 4)) * ((a % 16) * 256 + b) : Nat) : ℚ) * LUX_FACTOR) ∧
    lux_value 0x1A 0x2B = 5206 / 100 ∧
    read_lux (mk_response 0x1A 0x2B) = .ok (5206 / 100) := by
  have hl : lux_value 0x1A 0x2B = 5206 / 100 := by
    have h : ((1 <<< ((0x1A &&& 0xF0) >>> 4)) *
        (((0x1A &&& 0x0F) <<< 8) + 0x2B) : Nat) = 5206 := by decide
    unfold lux_value
    rw [h]
    unfold LUX_FACTOR
    norm_num
  refine ⟨?_, hl, ?_⟩
  · intro a b ha
    have h1 : (a &&& 240) >>> 4 = a >>> 4 := (lux_bits ⟨a, ha⟩).1
    have h2 : a &&& 15 = a % 16 := (lux_bits ⟨a, ha⟩).2
    have h3 : ((a % 16) <<< 8 : Nat) = (a % 16) * 256 := by
      rw [Nat.shiftLeft_eq]
    unfold lux_value
    rw [h1, h2, h3]
  · exact congrArg Except.ok hl

/-- Witness for C2: the formula instantiated at the bytes `0x1A`, `0x2B`. -/
theorem C2_read_lux_formula_witness :
    lux_value 0x1A 0x2B =
      (((1 <<< (0x1A >>> 4)) * ((0x1A % 16) * 256 + 0x2B) : Nat) : ℚ) * LUX_FACTOR :=
  C2_read_lux_formula.1 0x1A 0x2B (by norm_num)

/-- Claim C3 (the code violates it): `read_register`'s outbound frames are
32 bytes, but `set_configuration` writes its two command strings to the
endpoint WITHOUT `bytes.fromhex` (source lines 100 and 103), so the bytes
actually written are the ASCII hex-dump text: 97 bytes for the configuration
command and 96 bytes for the ack trigger, not 32. -/
theorem C3_outbound_frame_lengths :
    (strBytes (config_frame_chars 12 800 OperationModes.conntinuous)).length = 97 ∧
    (strBytes ack_trigger_chars).length = 96 ∧
    (∀ p : Fin 16, ∃ frame : List Nat,
      encode_read_register (Int.ofNat p.val) = .ok frame ∧ frame.length = 32) := by
  refine ⟨by decide, by decide, ?_⟩
  intro p
  exact ⟨read_register_expected_frame p.val, encode_read_register_eq p.val p.isLt,
    by simp [read_register_expected_frame]⟩

/-- Counterexample to claim C4: at `conversion_time = 800`,
`mode = conntinuous`, the mode field is rendered as ONE hex character
(`hex(8)[2:] = "8"`, no `zfill`), not two. -/
theorem C4_two_digit_counterexample :
    ¬ (mode_hex_chars 800 OperationModes.conntinuous).length = 2 := by decide

/-- Claim C4 amended: for every full_scale in [0,12] the full-scale field is
exactly two zero-padded hex characters, but the mode field is rendered
without padding and is exactly one hex character for every operating mode
and both conversion times, so the combined field is three characters, not
two byte positions. -/
theorem C4_field_widths (fs : Int) (h0 : 0 ≤ fs) (h12 : fs ≤ 12)
    (ct : Int) (hct : ct = 100 ∨ ct = 800) (mode : OperationModes) :
    (full_scale_hex_chars fs).length = 2 ∧
    (mode_hex_chars ct mode).length = 1 ∧
    (full_scale_hex_chars fs ++ mode_hex_chars ct mode).length = 3 := by
  have hfs : (full_scale_hex_chars fs).length = 2 := by
    interval_cases fs <;> decide
  have hm : (mode_hex_chars ct mode).length = 1 := by
    rcases hct with h | h <;> subst h <;> cases mode <;> decide
  exact ⟨hfs, hm, by rw [List.length_append, hfs, hm]⟩

/-- Witness for C4 (amended) at full_scale 12, conversion time 800,
continuous mode. -/
theorem C4_field_widths_witness :
    (full_scale_hex_chars 12).length = 2 ∧
    (mode_hex_chars 800 OperationModes.conntinuous).length = 1 :=
  ⟨(C4_field_widths 12 (by norm_num) (by norm_num) 800 (Or.inr rfl)
      OperationModes.conntinuous).1,
   (C4_field_widths 12 (by norm_num) (by norm_num) 800 (Or.inr rfl)
      OperationModes.conntinuous).2.1⟩

/-- Counterexample to claim C5: `set_configuration` validates nothing —
`conversion_time = 200` (neither 100 nor 800) does not fail, it is processed
exactly like 800, and `full_scale = 13` (outside [0,12]) does not fail, it
is hex-rendered as `"0d"`. -/
theorem C5_no_validation_counterexample :
    set_configuration 12 200 OperationModes.conntinuous =
      set_configuration 12 800 OperationModes.conntinuous ∧
    full_scale_hex_chars 13 = ['0', 'd'] :=
  ⟨rfl, by decide⟩

/-- Claim C5 amended: `set_configuration` performs no runtime validation and
never fails; for EVERY full_scale, conversion_time and mode it computes
`multiplier = 1 if conversion_time == 100 else 2` (any other value is
treated like 800), `mode_word = mode.value * multiplier`, and always emits
the two writes of the handshake. -/
theorem C5_no_validation (fs ct : Int) (mode : OperationModes) :
    convertion_time_multiplier ct = (if ct = 100 then 1 else 2) ∧
    mode_hex_chars ct mode =
      pyHexSlice (Int.ofNat (mode.value * convertion_time_multiplier ct)) ∧
    ∃ cfg ack : List Nat, set_configuration fs ct mode =
      [BusAction.write cfg, BusAction.settle WAIT_AFTER_WRITE, BusAction.read 32,
       BusAction.write ack, BusAction.read 32] :=
  ⟨rfl, rfl, _, _, rfl⟩

/-- Counterexample to claim C6: in `set_configuration`'s action trace the
second read is NOT preceded by the settle delay — the ack-trigger write is
followed immediately by the read (source lines 103–109 have no `sleep`). -/
theorem C6_settle_counterexample :
    settle_before_reads (set_configuration 12 800 OperationModes.conntinuous) = false :=
  rfl

/-- Claim C6 amended: every execution of the configure handshake performs
exactly write configuration frame, settle 1 ms, read 32, write ack-trigger
frame, read 32 — the settle delay separates write and read only in the
FIRST of the two exchanges. -/
theorem C6_configure_sequence (fs ct : Int) (mode : OperationModes) :
    set_configuration fs ct mode =
      [BusAction.write (strBytes (config_frame_chars fs ct mode)),
       BusAction.settle WAIT_AFTER_WRITE, BusAction.read 32,
       BusAction.write (strBytes ack_trigger_chars), BusAction.read 32] ∧
    settle_before_reads (set_configuration fs ct mode) = false :=
  ⟨rfl, rfl⟩

/-- Claim C7: decoding a register response fails with `ShortResponse` for
every frame shorter than 12 bytes; for every frame of length at least 12 it
returns exactly the bytes at offsets 9 and 11; and it is a left inverse of
the synthetic 32-byte construction `mk_response`. -/
theorem C7_decode_register_response (frame : List Nat) (x y : Nat) :
    (frame.length < 12 → decode_register_response frame = .error .ShortResponse) ∧
    (12 ≤ frame.length →
      decode_register_response frame = .ok (frame.getD 9 0, frame.getD 11 0)) ∧
    (mk_response x y).length = 32 ∧
    decode_register_response (mk_response x y) = .ok (x, y) := by
  refine ⟨?_, fun h => decode_ok frame h, rfl, rfl⟩
  intro h
  unfold decode_register_response
  rw [dif_neg (by omega)]

/-- Witness for C7: a 3-byte reply is rejected; a synthetic 32-byte reply
with 5 at offset 9 and 7 at offset 11 decodes to exactly that pair. -/
theorem C7_decode_register_response_witness :
    decode_register_response [1, 2, 3] = .error .ShortResponse ∧
    decode_register_response (mk_response 5 7) =
      .ok ((mk_response 5 7).getD 9 0, (mk_response 5 7).getD 11 0) ∧
    decode_register_response (mk_response 5 7) = .ok (5, 7) :=
  ⟨(C7_decode_register_response [1, 2, 3] 0 0).1 (by decide),
   (C7_decode_register_response (mk_response 5 7) 5 7).2.1 (by decide),
   (C7_decode_register_response (mk_response 5 7) 5 7).2.2.2⟩

/-- Claim C8: the configure handshake is deterministic in its parameters —
two calls with identical full_scale, conversion_time and mode write
byte-for-byte identical configuration and ack-trigger frames. -/
theorem C8_configure_deterministic (fs₁ ct₁ fs₂ ct₂ : Int)
    (m₁ m₂ : OperationModes) (hfs : fs₁ = fs₂) (hct : ct₁ = ct₂) (hm : m₁ = m₂) :
    outbound_writes (set_configuration fs₁ ct₁ m₁) =
      outbound_writes (set_configuration fs₂ ct₂ m₂) ∧
    outbound_writes (set_configuration fs₁ ct₁ m₁) =
      [strBytes (config_frame_chars fs₁ ct₁ m₁), strBytes ack_trigger_chars] := by
  subst hfs; subst hct; subst hm
  exact ⟨rfl, rfl⟩

/-- Witness for C8 at the default parameters of the constructor. -/
theorem C8_configure_deterministic_witness :
    outbound_writes (set_configuration 12 800 OperationModes.conntinuous) =
      outbound_writes (set_configuration 12 800 OperationModes.conntinuous) :=
  (C8_configure_deterministic 12 800 12 800 OperationModes.conntinuous
    OperationModes.conntinuous rfl rfl rfl).1

/-- Claim C9: `read_all_registers` issues exactly 16 single-register reads,
one per address, in ascending order 0..15 (its transport trace is the
concatenation of the 16 per-address exchanges in that order), and returns
the 16 raw byte pairs in that order. -/
theorem C9_read_all_registers (responses : Nat → List Nat)
    (hresp : ∀ k, k < 16 → 12 ≤ (responses k).length) :
    read_all_registers responses =
      .ok ((List.range 16).map
             (fun k => ((responses k).getD 9 0, (responses k).getD 11 0)),
           ((List.range 16).map read_register_actions).flatten) := by
  unfold read_all_registers
  rw [List.range_eq_range']
  exact read_all_from_range responses hresp 16 0 (by omega)

/-- Witness for C9: with every reply equal to a constant 32-byte frame, all
16 reads succeed and return the byte pair (7, 7) each, in order. -/
theorem C9_read_all_registers_witness :
    read_all_registers (fun _ => List.replicate 32 7) =
      .ok ((List.range 16).map (fun _ => (7, 7)),
           ((List.range 16).map read_register_actions).flatten) :=
  C9_read_all_registers (fun _ => List.replicate 32 7)
    (fun _ _ => by show (12 : Nat) ≤ (List.replicate 32 7).length; decide)

/-- Claim C10: for every operating mode of the enum and both conversion
times 100 and 800, `mode.value * multiplier` is at most 12, hence fits a
single byte and renders as at most two hex digits — the unchecked overflow
the spec worries about cannot occur for the defined modes. -/
theorem C10_mode_word_bounded (mode : OperationModes) (ct : Int)
    (hct : ct = 100 ∨ ct = 800) :
    mode.value * convertion_time_multiplier ct ≤ 12 ∧
    mode.value * convertion_time_multiplier ct < 256 ∧
    (pyHexNat (mode.value * convertion_time_multiplier ct)).length ≤ 2 := by
  rcases hct with h | h <;> subst h <;> cases mode <;>
    exact ⟨by decide, by decide, by decide⟩

/-- Witness for C10 at the largest product: continuous-variant mode with the
800 ms multiplier gives 6 * 2 = 12. -/
theorem C10_mode_word_bounded_witness :
    OperationModes.conntinuous_3.value * convertion_time_multiplier 800 ≤ 12 :=
  (C10_mode_word_bounded OperationModes.conntinuous_3 800 (Or.inr rfl)).1
